import Mathlib

/-!
Verification of the agent examples repository (simple_agent.py,
model_based_agent.py, llm_agent.py).  Each Python function used by a claim
is shallowly embedded as an executable Lean definition, translated line by
line from the source; console printing and the simulated latency sleep are
the only omitted effects (they do not influence any returned value or any
stored state).  Python machine-level details that matter are modelled
explicitly: string membership `tok in s` is exact, case-sensitive substring
containment; dict assignment overwrites in place keeping insertion order;
`dict.items()` and `dict.values()` iterate in insertion order.
-/

/-- Python `sub in s` on strings: exact (case-sensitive) substring test,
implemented over the character lists. -/
def isPrefixChars : List Char → List Char → Bool
  | [], _ => true
  | _ :: _, [] => false
  | a :: as, b :: bs => a == b && isPrefixChars as bs

/-- Helper for `pyIn`: does `sub` occur at some position of `s`? -/
def containsChars (sub : List Char) : List Char → Bool
  | [] => isPrefixChars sub []
  | b :: bs => isPrefixChars sub (b :: bs) || containsChars sub bs

/-- Python `sub in s` for strings (case-sensitive substring containment). -/
def pyIn (sub s : String) : Bool := containsChars sub.data s.data

/-- Python `s.lower()` (the repository only uses ASCII letters). -/
def pyLower (s : String) : String := ⟨s.data.map Char.toLower⟩

/-! ## model_based_agent.py -/

/-- The internal world model of `ModelBasedAgent` (`self.model` dict,
model_based_agent.py lines 17-25).  `last_meal` and `energy_level` are
Python ints. -/
structure Model where
  room_temperature : String
  room_lighting : String
  noise_level : String
  danger_present : Bool
  time_of_day : String
  last_meal : Int
  energy_level : Int
deriving DecidableEq, Repr

/-- The initial model assigned in `__init__`. -/
def initialModel : Model :=
  { room_temperature := "normal"
    room_lighting := "normal"
    noise_level := "quiet"
    danger_present := false
    time_of_day := "day"
    last_meal := 0
    energy_level := 100 }

/-- `update_model` lines 42-45: the temperature if/elif block. -/
def updTemp (percept : String) (m : Model) : Model :=
  if pyIn "cold" percept then { m with room_temperature := "cold" }
  else if pyIn "hot" percept then { m with room_temperature := "hot" }
  else m

/-- `update_model` lines 47-50: the lighting if/elif block. -/
def updLight (percept : String) (m : Model) : Model :=
  if pyIn "dark" percept then { m with room_lighting := "dark" }
  else if pyIn "bright" percept then { m with room_lighting := "bright" }
  else m

/-- `update_model` lines 52-53: the noise block. -/
def updNoise (percept : String) (m : Model) : Model :=
  if pyIn "noise" percept then { m with noise_level := "noisy" } else m

/-- `update_model` lines 55-56: `if "danger" in percept or "smoke" in percept`. -/
def updDanger (percept : String) (m : Model) : Model :=
  if pyIn "danger" percept || pyIn "smoke" percept then
    { m with danger_present := true }
  else m

/-- `update_model` lines 58-61: the time-of-day if/elif block. -/
def updTime (percept : String) (m : Model) : Model :=
  if pyIn "morning" percept then { m with time_of_day := "morning" }
  else if pyIn "night" percept then { m with time_of_day := "night" }
  else m

/-- `update_model` lines 63-64: `self.model["last_meal"] += 4` when hungry. -/
def updMeal (percept : String) (m : Model) : Model :=
  if pyIn "hungry" percept then { m with last_meal := m.last_meal + 4 } else m

/-- `update_model` lines 66-69: energy decreases by 2, clamped below at 0. -/
def updEnergyDecay (m : Model) : Model :=
  let e := m.energy_level - 2
  { m with energy_level := if e < 0 then 0 else e }

/-- `ModelBasedAgent.update_model` (lines 39-69): the sequential
composition of the statement blocks above, in source order. -/
def update_model (m : Model) (percept : String) : Model :=
  updEnergyDecay (updMeal percept (updTime percept (updDanger percept
    (updNoise percept (updLight percept (updTemp percept m))))))

/-- `ModelBasedAgent.think` (lines 79-109): the priority chain. -/
def think (m : Model) : String :=
  if m.danger_present then "escape"
  else if m.energy_level < 20 then "rest"
  else if m.last_meal > 6 then "eat_food"
  else if m.room_temperature = "cold" then "turn_on_heater"
  else if m.room_temperature = "hot" then "turn_on_ac"
  else if m.room_lighting = "dark" ∧ m.time_of_day ≠ "night" then "turn_on_light"
  else if m.room_lighting = "bright" ∧ m.time_of_day = "night" then "close_blinds"
  else if m.noise_level = "noisy" then "investigate_noise"
  else "do_nothing"

/-- The agent object: `self.model` and `self.actions_taken`. -/
structure MBAgent where
  model : Model
  actions_taken : Nat
deriving Repr

/-- `ModelBasedAgent.perceive` (lines 73-77), printing omitted. -/
def MBAgent.perceive (a : MBAgent) (environment_state : String) : MBAgent :=
  { a with model := update_model a.model environment_state }

/-- The effect application loop of `ModelBasedAgent.act` (lines 119-121):
for every key of `self.action_effects[action]` the source executes
`self.model[key] = value`, a plain assignment of the literal value from the
`action_effects` table of lines 28-37 (note: the numeric values, written
with explicit signs such as `-5` and `+30`, are nevertheless assigned, not
added).  Actions without an entry leave the model unchanged. -/
def applyEffects (action : String) (m : Model) : Model :=
  if action = "turn_on_ac" then { m with room_temperature := "normal", energy_level := -5 }
  else if action = "turn_on_heater" then { m with room_temperature := "normal", energy_level := -5 }
  else if action = "turn_on_light" then { m with room_lighting := "normal", energy_level := -1 }
  else if action = "close_blinds" then { m with room_lighting := "normal", energy_level := -1 }
  else if action = "investigate_noise" then { m with noise_level := "quiet", energy_level := -10 }
  else if action = "eat_food" then { m with last_meal := 0, energy_level := 30 }
  else if action = "rest" then { m with energy_level := 50 }
  else if action = "escape" then { m with danger_present := false, energy_level := -20 }
  else m

/-- `ModelBasedAgent.act` (lines 111-123): think, count the action, apply
its effects, return the action. -/
def MBAgent.act (a : MBAgent) : String × MBAgent :=
  let action := think a.model
  let a2 : MBAgent := { a with actions_taken := a.actions_taken + 1 }
  (action, { a2 with model := applyEffects action a2.model })

/-! ## simple_agent.py -/

/-- The condition-action rules dict of `SimpleAgent.__init__` (lines
18-27), as the ordered association list that a CPython dict iterates in
declaration order. -/
def defaultSimpleRules : List (String × String) :=
  [("hot", "turn_on_ac"),
   ("cold", "turn_on_heater"),
   ("dark", "turn_on_light"),
   ("bright", "close_blinds"),
   ("hungry", "find_food"),
   ("tired", "rest"),
   ("noise", "investigate"),
   ("danger", "escape")]

/-- The state of a `SimpleAgent`: percept history, its rules dict, and the
action counter. -/
structure SimpleAgent where
  percepts : List String
  rules : List (String × String)
  actions_taken : Nat
deriving Repr

/-- A freshly constructed `SimpleAgent`. -/
def initialSimpleAgent : SimpleAgent :=
  { percepts := [], rules := defaultSimpleRules, actions_taken := 0 }

/-- `SimpleAgent.perceive` (lines 29-33), printing omitted. -/
def SimpleAgent.perceive (a : SimpleAgent) (environment_state : String) : SimpleAgent :=
  { a with percepts := a.percepts ++ [environment_state] }

/-- The rule scan loop of `SimpleAgent.think` (lines 43-46): first rule
whose condition is a substring of the percept wins; `"do_nothing"` when
none matches (lines 48-50). -/
def scanRules : List (String × String) → String → String
  | [], _ => "do_nothing"
  | (condition, action) :: rs, p =>
    if pyIn condition p then action else scanRules rs p

/-- `SimpleAgent.think` (lines 35-50): empty percept list returns the
sentinel immediately; otherwise the last percept is scanned. -/
def SimpleAgent.think (a : SimpleAgent) : String :=
  match a.percepts.getLast? with
  | none => "do_nothing"
  | some current_percept => scanRules a.rules current_percept

/-- `SimpleAgent.act` (lines 52-57): think, bump the counter, return the
action. -/
def SimpleAgent.act (a : SimpleAgent) : String × SimpleAgent :=
  let action := a.think
  (action, { a with actions_taken := a.actions_taken + 1 })

/-! ## llm_agent.py : calculator (`calculate`, lines 71-79)

The source evaluates the input with `eval(expression, {"__builtins__": {}})`
and formats either `f"Result: {result}"` or `f"Error calculating: {e}"`.
We embed Python `eval` on the expression fragment the claims exercise:
integer literals, single-quoted string literals without escapes, the four
binary operators `+ - * /` with Python precedence and left associativity,
and surrounding whitespace.  Anything outside the fragment (such as the
statement `import os`, which `eval` rejects with a `SyntaxError`) is a
parse failure.  Python division of integers produces a float; floats are
modelled as exact rationals (tagged `PyVal.float`), whose textual
rendering is modelled faithfully only for integral values — no verified
statement depends on a non-integral float rendering.  Exception texts are
the CPython messages for the modelled failure modes. -/

/-- Values a modelled Python expression can produce. -/
inductive PyVal where
  | int (n : Int)
  | float (q : Rat)
  | str (s : String)
deriving DecidableEq, Repr

/-- The embedded Python expression fragment. -/
inductive PyExpr where
  | intLit (n : Nat)
  | strLit (s : String)
  | add (a b : PyExpr)
  | sub (a b : PyExpr)
  | mul (a b : PyExpr)
  | div (a b : PyExpr)
deriving DecidableEq, Repr

/-- The apostrophe character (the string-literal quote of the fragment). -/
def quoteChar : Char := Char.ofNat 39

/-- Digit run to a natural number. -/
def natOfDigits (ds : List Char) : Nat :=
  ds.foldl (fun n c => 10 * n + (c.toNat - 48)) 0

/-- Parse one factor: an integer literal or a single-quoted string
literal, after optional whitespace. -/
def parseFactor (cs : List Char) : Option (PyExpr × List Char) :=
  let cs2 := cs.dropWhile Char.isWhitespace
  match cs2 with
  | [] => none
  | c :: rest =>
    if c.isDigit then
      some (PyExpr.intLit (natOfDigits (cs2.takeWhile Char.isDigit)),
            cs2.dropWhile Char.isDigit)
    else if c == quoteChar then
      match rest.dropWhile (fun d => d != quoteChar) with
      | q :: after =>
        if q == quoteChar then
          some (PyExpr.strLit ⟨rest.takeWhile (fun d => d != quoteChar)⟩, after)
        else none
      | [] => none
    else none

/-- Parse a chain of `*` and `/` applications (left associative). -/
def parseMulChain : Nat → PyExpr → List Char → Option (PyExpr × List Char)
  | 0, _, _ => none
  | fuel + 1, acc, cs =>
    let cs2 := cs.dropWhile Char.isWhitespace
    match cs2 with
    | c :: rest =>
      if c == '*' then
        match parseFactor rest with
        | some (f, cs3) => parseMulChain fuel (PyExpr.mul acc f) cs3
        | none => none
      else if c == '/' then
        match parseFactor rest with
        | some (f, cs3) => parseMulChain fuel (PyExpr.div acc f) cs3
        | none => none
      else some (acc, cs2)
    | [] => some (acc, [])

/-- Parse a term: a factor followed by a multiplicative chain. -/
def parseTerm (fuel : Nat) (cs : List Char) : Option (PyExpr × List Char) :=
  match parseFactor cs with
  | some (f, cs2) => parseMulChain fuel f cs2
  | none => none

/-- Parse a chain of `+` and `-` applications (left associative). -/
def parseAddChain : Nat → PyExpr → List Char → Option (PyExpr × List Char)
  | 0, _, _ => none
  | fuel + 1, acc, cs =>
    let cs2 := cs.dropWhile Char.isWhitespace
    match cs2 with
    | c :: rest =>
      if c == '+' then
        match parseTerm fuel rest with
        | some (t, cs3) => parseAddChain fuel (PyExpr.add acc t) cs3
        | none => none
      else if c == '-' then
        match parseTerm fuel rest with
        | some (t, cs3) => parseAddChain fuel (PyExpr.sub acc t) cs3
        | none => none
      else some (acc, cs2)
    | [] => some (acc, [])

/-- Parse a whole expression string of the fragment; `none` models the
`SyntaxError` that `eval` raises on anything else. -/
def parsePyExpr (s : String) : Option PyExpr :=
  let fuel := s.data.length + 1
  match parseTerm fuel s.data with
  | some (t, cs2) =>
    match parseAddChain fuel t cs2 with
    | some (e, rest) =>
      if (rest.dropWhile Char.isWhitespace).isEmpty then some e else none
    | none => none
  | none => none

/-- Python `+` on the modelled values: int/float addition, string
concatenation, `TypeError` on a mix. -/
def pyAdd : PyVal → PyVal → Except String PyVal
  | PyVal.int a, PyVal.int b => Except.ok (PyVal.int (a + b))
  | PyVal.int a, PyVal.float q => Except.ok (PyVal.float ((a : Rat) + q))
  | PyVal.float q, PyVal.int b => Except.ok (PyVal.float (q + (b : Rat)))
  | PyVal.float a, PyVal.float b => Except.ok (PyVal.float (a + b))
  | PyVal.str a, PyVal.str b => Except.ok (PyVal.str (a ++ b))
  | _, _ => Except.error "unsupported operand type(s) for +"

/-- Python `-` on the modelled values: numeric only. -/
def pySub : PyVal → PyVal → Except String PyVal
  | PyVal.int a, PyVal.int b => Except.ok (PyVal.int (a - b))
  | PyVal.int a, PyVal.float q => Except.ok (PyVal.float ((a : Rat) - q))
  | PyVal.float q, PyVal.int b => Except.ok (PyVal.float (q - (b : Rat)))
  | PyVal.float a, PyVal.float b => Except.ok (PyVal.float (a - b))
  | _, _ => Except.error "unsupported operand type(s) for -"

/-- Python `s * n` for a string and a non-negative int. -/
def repeatStr (s : String) (n : Int) : String :=
  if n ≤ 0 then "" else String.join (List.replicate n.toNat s)

/-- Python `*` on the modelled values: numeric product, or string
repetition with an int. -/
def pyMul : PyVal → PyVal → Except String PyVal
  | PyVal.int a, PyVal.int b => Except.ok (PyVal.int (a * b))
  | PyVal.int a, PyVal.float q => Except.ok (PyVal.float ((a : Rat) * q))
  | PyVal.float q, PyVal.int b => Except.ok (PyVal.float (q * (b : Rat)))
  | PyVal.float a, PyVal.float b => Except.ok (PyVal.float (a * b))
  | PyVal.str s, PyVal.int n => Except.ok (PyVal.str (repeatStr s n))
  | PyVal.int n, PyVal.str s => Except.ok (PyVal.str (repeatStr s n))
  | _, _ => Except.error "unsupported operand type(s) for *"

/-- Python `/` on the modelled values: true division producing a float,
`ZeroDivisionError` on a zero divisor, `TypeError` on strings. -/
def pyDiv : PyVal → PyVal → Except String PyVal
  | PyVal.int a, PyVal.int b =>
    if b = 0 then Except.error "division by zero"
    else Except.ok (PyVal.float ((a : Rat) / (b : Rat)))
  | PyVal.int a, PyVal.float q =>
    if q = 0 then Except.error "float division by zero"
    else Except.ok (PyVal.float ((a : Rat) / q))
  | PyVal.float q, PyVal.int b =>
    if b = 0 then Except.error "float division by zero"
    else Except.ok (PyVal.float (q / (b : Rat)))
  | PyVal.float a, PyVal.float b =>
    if b = 0 then Except.error "float division by zero"
    else Except.ok (PyVal.float (a / b))
  | _, _ => Except.error "unsupported operand type(s) for /"

/-- Evaluation of the fragment: Python semantics of the four operators,
errors propagate left to right. -/
def pyEval : PyExpr → Except String PyVal
  | PyExpr.intLit n => Except.ok (PyVal.int (n : Int))
  | PyExpr.strLit s => Except.ok (PyVal.str s)
  | PyExpr.add a b =>
    match pyEval a with
    | Except.error e => Except.error e
    | Except.ok va =>
      match pyEval b with
      | Except.error e => Except.error e
      | Except.ok vb => pyAdd va vb
  | PyExpr.sub a b =>
    match pyEval a with
    | Except.error e => Except.error e
    | Except.ok va =>
      match pyEval b with
      | Except.error e => Except.error e
      | Except.ok vb => pySub va vb
  | PyExpr.mul a b =>
    match pyEval a with
    | Except.error e => Except.error e
    | Except.ok va =>
      match pyEval b with
      | Except.error e => Except.error e
      | Except.ok vb => pyMul va vb
  | PyExpr.div a b =>
    match pyEval a with
    | Except.error e => Except.error e
    | Except.ok va =>
      match pyEval b with
      | Except.error e => Except.error e
      | Except.ok vb => pyDiv va vb

/-- Python `str(...)` of a modelled value, as interpolated by
`f"Result: {result}"`; a float is rendered faithfully when integral. -/
def pyReprVal : PyVal → String
  | PyVal.int n => toString n
  | PyVal.float q => if q.den = 1 then toString q.num ++ ".0" else toString q
  | PyVal.str s => s

/-- `calculate` (llm_agent.py lines 71-79): evaluate the input with
`eval(expression, {"__builtins__": {}})`, returning `"Result: ..."` on
success and `f"Error calculating: {e}"` on any exception (syntax errors
included). -/
def calculate (expression : String) : String :=
  match parsePyExpr expression with
  | none => "Error calculating: invalid syntax (<string>, line 1)"
  | some e =>
    match pyEval e with
    | Except.ok result => "Result: " ++ pyReprVal result
    | Except.error msg => "Error calculating: " ++ msg

/-- An expression of the restricted arithmetic sublanguage of the claim:
numeric literals and the four operators only (no string literals). -/
def isArithExpr : PyExpr → Bool
  | PyExpr.intLit _ => true
  | PyExpr.strLit _ => false
  | PyExpr.add a b => isArithExpr a && isArithExpr b
  | PyExpr.sub a b => isArithExpr a && isArithExpr b
  | PyExpr.mul a b => isArithExpr a && isArithExpr b
  | PyExpr.div a b => isArithExpr a && isArithExpr b

/-- Numeric (non-string) modelled values. -/
def isNumVal : PyVal → Bool
  | PyVal.int _ => true
  | PyVal.float _ => true
  | PyVal.str _ => false

/-! ## llm_agent.py : tools, registry, simulated response, process -/

/-- `Tool` (llm_agent.py lines 14-32): name, description, handler.  A
handler that raises is modelled as returning `Except.error`; the three
built-in handlers never raise. -/
structure Tool where
  name : String
  description : String
  func : String → Except String String

/-- `Tool.to_dict` (lines 27-32): the `\x7b"name", "description"\x7d`
dict, as an ordered pair. -/
def Tool.to_dict (t : Tool) : String × String := (t.name, t.description)

/-- `LLMAgent.register_tool` (lines 45-48): `self.tools[tool.name] = tool`
on a CPython dict — an existing key keeps its position and gets the new
value, a new key is appended.  The `print` notification is omitted. -/
def registerTool (ts : List Tool) (t : Tool) : List Tool :=
  if ts.any (fun u => u.name == t.name) then
    ts.map (fun u => if u.name == t.name then t else u)
  else ts ++ [t]

/-- Dict lookup `self.tools[action]` / membership `action in self.tools`. -/
def findTool (ts : List Tool) (n : String) : Option Tool :=
  ts.find? (fun t => t.name == n)

/-- The weather table of `get_weather` (lines 56-61), with the literal
strings of the source file. -/
def weatherData : List (String × String) :=
  [("New York", "Sunny, 75¬∞F"),
   ("London", "Rainy, 60¬∞F"),
   ("Tokyo", "Cloudy, 70¬∞F"),
   ("Sydney", "Clear, 80¬∞F")]

/-- `get_weather` (lines 53-62): `weather_data.get(location, "Weather data
not available")`. -/
def get_weather (location : String) : String :=
  ((weatherData.find? (fun kv => kv.1 == location)).map Prod.snd).getD
    "Weather data not available"

/-- `search` (lines 65-68). -/
def searchFunc (query : String) : String :=
  "Simulated search results for: " ++ query

/-- The three default tools registered by `register_default_tools`
(lines 82-84). -/
def weatherTool : Tool :=
  ⟨"get_weather", "Get the current weather for a location",
   fun l => Except.ok (get_weather l)⟩

/-- The search tool (line 83). -/
def searchTool : Tool :=
  ⟨"search", "Search for information on the web",
   fun q => Except.ok (searchFunc q)⟩

/-- The calculator tool (line 84); `calculate` catches every exception
itself, so its handler never raises. -/
def calculateTool : Tool :=
  ⟨"calculate", "Evaluate a mathematical expression",
   fun e => Except.ok (calculate e)⟩

/-- `register_default_tools` (lines 50-84): the three registrations, in
source order, starting from the empty dict of `__init__`. -/
def defaultTools : List Tool :=
  registerTool (registerTool (registerTool [] weatherTool) searchTool) calculateTool

/-- One dict of the `json.dumps(..., indent=2)` output (two-space
indentation, keys in insertion order). -/
def dictJson (d : String × String) : String :=
  "\x7b\n    \"name\": \"" ++ d.1 ++ "\",\n    \"description\": \"" ++ d.2
    ++ "\"\n  \x7d"

/-- `json.dumps(list_of_dicts, indent=2)`. -/
def jsonDump (ds : List (String × String)) : String :=
  match ds with
  | [] => "[]"
  | _ => "[\n  " ++ String.intercalate ",\n  " (ds.map dictJson) ++ "\n]"

/-- `LLMAgent.get_available_tools_prompt` (lines 90-93). -/
def get_available_tools_prompt (ts : List Tool) : String :=
  "You have access to the following tools:\n" ++ jsonDump (ts.map Tool.to_dict)

/-- `LLMAgent.process_tool_use` (lines 152-161): dispatch by name, catch
any handler failure into a descriptive string, report unknown names. -/
def process_tool_use (ts : List Tool) (action : String) (input : String) : String :=
  match findTool ts action with
  | some t =>
    match t.func input with
    | Except.ok result => "Tool \x27" ++ action ++ "\x27 returned: " ++ result
    | Except.error e => "Error using tool \x27" ++ action ++ "\x27: " ++ e
  | none => "Tool \x27" ++ action ++ "\x27 not found."

/-- The simulated LLM response dict (lines 103-107): `action`,
`action_input` and `response` are `None` unless a branch sets them. -/
structure LLMResponse where
  action : Option String
  action_input : Option String
  thoughts : String
  response : Option String
deriving Repr

/-- The location extraction of the weather branch (lines 112-121): the
first of the four fixed locations contained (lowercased) in the prompt,
else the `"New York"` default. -/
def locFromPrompt (prompt : String) : String :=
  let lp := pyLower prompt
  if pyIn "new york" lp then "New York"
  else if pyIn "london" lp then "London"
  else if pyIn "tokyo" lp then "Tokyo"
  else if pyIn "sydney" lp then "Sydney"
  else "New York"

/-- Try the regex `\d+\s*[\+\-\*\/]\s*\d+` anchored at the current
position: maximal digit run, optional whitespace, one operator, optional
whitespace, maximal digit run (for this pattern greedy matching needs no
backtracking). -/
def matchPatAt (cs : List Char) : Option (List Char) :=
  let d1 := cs.takeWhile Char.isDigit
  if d1.isEmpty then none
  else
    let r1 := cs.dropWhile Char.isDigit
    let s1 := r1.takeWhile Char.isWhitespace
    match r1.dropWhile Char.isWhitespace with
    | c :: r2 =>
      if c == '+' || c == '-' || c == '*' || c == '/' then
        let s2 := r2.takeWhile Char.isWhitespace
        let d2 := (r2.dropWhile Char.isWhitespace).takeWhile Char.isDigit
        if d2.isEmpty then none
        else some (d1 ++ s1 ++ [c] ++ s2 ++ d2)
      else none
    | [] => none

/-- `re.search(r"\d+\s*[\+\-\*\/]\s*\d+", prompt)` (line 129): the
leftmost match. -/
def reSearchNumOpNum : List Char → Option (List Char)
  | [] => none
  | c :: cs =>
    match matchPatAt (c :: cs) with
    | some m => some m
    | none => reSearchNumOpNum cs

/-- Python `s.replace(old, new)` for a non-empty `old`: replace every
non-overlapping occurrence, scanning left to right (fuelled recursion;
fuel `length + 1` always suffices because each step consumes at least one
character). -/
def replaceChars (old new : List Char) : Nat → List Char → List Char
  | _, [] => []
  | 0, cs => cs
  | fuel + 1, c :: cs =>
    if isPrefixChars old (c :: cs) then
      new ++ replaceChars old new fuel (List.drop old.length (c :: cs))
    else c :: replaceChars old new fuel cs

/-- Python `s.replace(old, new)` on strings (`old` non-empty in every use
in the source). -/
def pyReplace (s old new : String) : String :=
  ⟨replaceChars old.data new.data (s.data.length + 1) s.data⟩

/-- Python `s.strip()`: remove leading and trailing whitespace. -/
def pyStrip (s : String) : String :=
  ⟨((s.data.dropWhile Char.isWhitespace).reverse.dropWhile
      Char.isWhitespace).reverse⟩

/-- `LLMAgent.simulate_llm_response` (lines 95-150): the ordered keyword
checks — weather first, then calculate/operator, then search triggers,
else the canned conversational reply.  The `time.sleep(0.5)` latency has
no effect on the returned dict and is omitted. -/
def simulate_llm_response (prompt : String) : LLMResponse :=
  let lp := pyLower prompt
  if pyIn "weather" lp then
    let loc := locFromPrompt prompt
    { action := some "get_weather"
      action_input := some loc
      thoughts := "The user is asking about weather. I should check the weather in "
        ++ loc ++ "."
      response := none }
  else if pyIn "calculate" lp || pyIn "+" prompt || pyIn "-" prompt
      || pyIn "*" prompt || pyIn "/" prompt then
    match reSearchNumOpNum prompt.data with
    | some m =>
      let expr := pyReplace ⟨m⟩ " " ""
      { action := some "calculate"
        action_input := some expr
        thoughts := "This looks like a calculation request. I\x27ll compute "
          ++ expr ++ "."
        response := none }
    | none =>
      { action := some "calculate"
        action_input := some "2+2"
        thoughts := "I\x27m not sure what to calculate, but I\x27ll do a simple calculation."
        response := none }
  else if pyIn "search" lp || pyIn "find" lp || pyIn "look up" lp then
    let q := pyStrip (pyReplace (pyReplace (pyReplace prompt "search" "") "find" "") "look up" "")
    { action := some "search"
      action_input := some q
      thoughts := "The user wants information. I\x27ll search for \x27" ++ q ++ "\x27."
      response := none }
  else
    { action := none
      action_input := none
      thoughts := "I don\x27t have a specific tool for this request. I\x27ll just respond conversationally."
      response := some "I\x27m not sure how to help with that specific request. Could you try asking something about the weather, a calculation, or a search query?" }

/-- The agent state of `LLMAgent.__init__` (lines 38-43): conversation
memory and the tools dict. -/
structure LLMAgentState where
  memory : List (String × String)
  tools : List Tool

/-- `LLMAgent.add_to_memory` (lines 86-88). -/
def addToMemory (a : LLMAgentState) (role content : String) : LLMAgentState :=
  { a with memory := a.memory ++ [(role, content)] }

/-- Python `xs[-n:]`: the last `n` elements. -/
def lastN (n : Nat) (xs : List (String × String)) : List (String × String) :=
  xs.drop (xs.length - n)

/-- The fixed fallback reply of the final branch of `process` (line 201). -/
def fallbackReply : String := "I\x27m not sure how to respond to that."

/-- `LLMAgent.process` (lines 163-203).  The constructed `prompt` string
is computed but never consumed — the source passes `user_input` to
`simulate_llm_response` — and is kept here as the unused `_prompt`
binding.  The branch guard on line 177 is Python truthiness:
`llm_response.get("action")` must be a non-empty string and
`llm_response.get("action_input") is not None`; line 193 tests
`llm_response.get("response")` for truthiness likewise. -/
def LLMAgentState.process (a : LLMAgentState) (user_input : String) :
    String × LLMAgentState :=
  let a1 := addToMemory a "user" user_input
  let tools_prompt := get_available_tools_prompt a1.tools
  let memory_prompt :=
    String.intercalate "\n" ((lastN 5 a1.memory).map (fun m => m.1 ++ ": " ++ m.2))
  let _prompt := tools_prompt ++ "\n\nConversation history:\n" ++ memory_prompt
    ++ "\n\nHow would you respond to this?"
  let r := simulate_llm_response user_input
  let direct : String × LLMAgentState :=
    match r.response with
    | some resp =>
      if resp = "" then (fallbackReply, addToMemory a1 "assistant" fallbackReply)
      else (resp, addToMemory a1 "assistant" resp)
    | none => (fallbackReply, addToMemory a1 "assistant" fallbackReply)
  match r.action, r.action_input with
  | some action, some input =>
    if action = "" then direct
    else
      let tool_result := process_tool_use a1.tools action input
      let final := "I used " ++ action ++ " to help answer your question. " ++ tool_result
      (final, addToMemory a1 "assistant" final)
  | _, _ => direct

/-- The first matching location, written from the words of the claim: the
first entry of the fixed list whose lowercasing occurs in the lowercased
input, defaulting to `"New York"`. -/
def firstMatchingLocationSpec (prompt : String) : String :=
  ((["New York", "London", "Tokyo", "Sydney"].find?
      (fun loc => pyIn (pyLower loc) (pyLower prompt))).getD "New York")

/-- A registrable tool whose handler always raises, used to exercise the
error-containment path of `process_tool_use` with a concrete failure. -/
def boomTool : Tool :=
  ⟨"boom", "a tool whose handler always raises", fun _ => Except.error "kaboom"⟩

/-! ## Theorems -/

/-- `updTemp` does not touch the danger flag. -/
theorem updTemp_danger (p : String) (m : Model) :
    (updTemp p m).danger_present = m.danger_present := by
  unfold updTemp; split_ifs <;> rfl

/-- `updLight` does not touch the danger flag. -/
theorem updLight_danger (p : String) (m : Model) :
    (updLight p m).danger_present = m.danger_present := by
  unfold updLight; split_ifs <;> rfl

/-- `updNoise` does not touch the danger flag. -/
theorem updNoise_danger (p : String) (m : Model) :
    (updNoise p m).danger_present = m.danger_present := by
  unfold updNoise; split_ifs <;> rfl

/-- `updTime` does not touch the danger flag. -/
theorem updTime_danger (p : String) (m : Model) :
    (updTime p m).danger_present = m.danger_present := by
  unfold updTime; split_ifs <;> rfl

/-- `updMeal` does not touch the danger flag. -/
theorem updMeal_danger (p : String) (m : Model) :
    (updMeal p m).danger_present = m.danger_present := by
  unfold updMeal; split_ifs <;> rfl

/-- `updEnergyDecay` does not touch the danger flag. -/
theorem updEnergyDecay_danger (m : Model) :
    (updEnergyDecay m).danger_present = m.danger_present := rfl

/-- `updDanger` sets the danger flag exactly when a danger-class token is
contained in the percept. -/
theorem updDanger_danger (p : String) (m : Model) :
    (updDanger p m).danger_present
      = ((pyIn "danger" p || pyIn "smoke" p) || m.danger_present) := by
  unfold updDanger; split_ifs with h
  · simp [h]
  · simp at h; simp [h]

/-- Claim C2: for every percept containing a danger-class token
(`"danger"` or `"smoke"`) and every assignment of all other model fields,
after the model-based agent perceives the percept, `think` returns
`"escape"`: the danger check is the first branch of the priority chain, so
danger outranks every resource, comfort and anomaly condition. -/
theorem danger_overrides_all (a : MBAgent) (p : String)
    (h : (pyIn "danger" p || pyIn "smoke" p) = true) :
    think (MBAgent.perceive a p).model = "escape" := by
  have hd : (update_model a.model p).danger_present = true := by
    simp [update_model, updEnergyDecay_danger, updMeal_danger, updTime_danger,
      updDanger_danger, updNoise_danger, updLight_danger, updTemp_danger, h]
  simp [MBAgent.perceive, think, hd]

/-- Witness for C2: a concrete smoke percept on the initial agent. -/
theorem danger_overrides_all_witness :
    think (MBAgent.perceive ⟨initialModel, 0⟩ "There is smoke in the room - danger!").model
      = "escape" :=
  danger_overrides_all ⟨initialModel, 0⟩ "There is smoke in the room - danger!" (by decide)

/-- The temperature if/elif block of `update_model`, as a record
equation. -/
theorem updTemp_eq (p : String) (m : Model) :
    updTemp p m = { m with room_temperature :=
      (if pyIn "cold" p then "cold"
       else if pyIn "hot" p then "hot"
       else m.room_temperature) } := by
  unfold updTemp; split_ifs <;> rfl

/-- The lighting if/elif block of `update_model`, as a record equation. -/
theorem updLight_eq (p : String) (m : Model) :
    updLight p m = { m with room_lighting :=
      (if pyIn "dark" p then "dark"
       else if pyIn "bright" p then "bright"
       else m.room_lighting) } := by
  unfold updLight; split_ifs <;> rfl

/-- The noise block of `update_model`, as a record equation. -/
theorem updNoise_eq (p : String) (m : Model) :
    updNoise p m = { m with noise_level :=
      (if pyIn "noise" p then "noisy" else m.noise_level) } := by
  unfold updNoise; split_ifs <;> rfl

/-- The danger block of `update_model`, as a record equation. -/
theorem updDanger_eq (p : String) (m : Model) :
    updDanger p m = { m with danger_present :=
      (if pyIn "danger" p || pyIn "smoke" p then true else m.danger_present) } := by
  unfold updDanger; split_ifs <;> rfl

/-- The time-of-day if/elif block of `update_model`, as a record
equation. -/
theorem updTime_eq (p : String) (m : Model) :
    updTime p m = { m with time_of_day :=
      (if pyIn "morning" p then "morning"
       else if pyIn "night" p then "night"
       else m.time_of_day) } := by
  unfold updTime; split_ifs <;> rfl

/-- The hunger block of `update_model`, as a record equation. -/
theorem updMeal_eq (p : String) (m : Model) :
    updMeal p m = { m with last_meal :=
      (if pyIn "hungry" p then m.last_meal + 4 else m.last_meal) } := by
  unfold updMeal; split_ifs <;> rfl

/-- Claim C5 (amended): percept token matching is case-sensitive exact
substring containment, for every token of the fixed table — `update_model`
fires each field assignment exactly when the percept contains the token
`"cold"`, `"hot"`, `"dark"`, `"bright"`, `"noise"`, `"danger"`,
`"smoke"`, `"morning"`, `"night"` or `"hungry"` in the exact casing of
the source, for every percept and every prior model. -/
theorem percept_token_match_case_sensitive (m : Model) (p : String) :
    (update_model m p).room_temperature
      = (if pyIn "cold" p then "cold"
         else if pyIn "hot" p then "hot"
         else m.room_temperature) ∧
    (update_model m p).room_lighting
      = (if pyIn "dark" p then "dark"
         else if pyIn "bright" p then "bright"
         else m.room_lighting) ∧
    (update_model m p).noise_level
      = (if pyIn "noise" p then "noisy" else m.noise_level) ∧
    (update_model m p).danger_present
      = (if pyIn "danger" p || pyIn "smoke" p then true else m.danger_present) ∧
    (update_model m p).time_of_day
      = (if pyIn "morning" p then "morning"
         else if pyIn "night" p then "night"
         else m.time_of_day) ∧
    (update_model m p).last_meal
      = (if pyIn "hungry" p then m.last_meal + 4 else m.last_meal) := by
  simp only [update_model, updTemp_eq, updLight_eq, updNoise_eq, updDanger_eq,
    updTime_eq, updMeal_eq, updEnergyDecay]
  refine ⟨?_, ?_, ?_, ?_, ?_, ?_⟩ <;> trivial

/-- Counterexample to C5 as stated: perceiving `"COLD"` does not update
`room_temperature` (matching is case-sensitive), while perceiving
`"cold"` does — so uppercase percepts are not parsed like lowercase ones. -/
theorem percept_uppercase_not_matched :
    (update_model initialModel "COLD").room_temperature = "normal" ∧
    (update_model initialModel "cold").room_temperature = "cold" := by decide

/-- Claim C3 (code bug evidence): starting from the initial model,
perceiving `"cold"` and acting selects `"turn_on_heater"`, whose effect
application executes `self.model["energy_level"] = -5` — a plain
assignment of the table value — leaving the bounded field
`energy_level` at `-5`, outside `[0, 100]`. -/
theorem energy_level_leaves_range :
    (MBAgent.act (MBAgent.perceive ⟨initialModel, 0⟩ "cold")).1 = "turn_on_heater" ∧
    ((MBAgent.act (MBAgent.perceive ⟨initialModel, 0⟩ "cold")).2).model.energy_level = -5 ∧
    ¬ (0 ≤ ((MBAgent.act (MBAgent.perceive ⟨initialModel, 0⟩ "cold")).2).model.energy_level) := by
  decide

/-- Claim C10: with an empty percept list, `think` (and hence `act`)
returns the sentinel `"do_nothing"`, whatever the rule table holds. -/
theorem empty_percepts_do_nothing (a : SimpleAgent) (h : a.percepts = []) :
    a.think = "do_nothing" ∧ (a.act).1 = "do_nothing" := by
  have hl : a.percepts.getLast? = none := by rw [h]; rfl
  refine ⟨?_, ?_⟩ <;> simp [SimpleAgent.think, SimpleAgent.act, hl]

/-- Witness for C10: the freshly constructed agent. -/
theorem empty_percepts_do_nothing_witness :
    initialSimpleAgent.think = "do_nothing" ∧
    (initialSimpleAgent.act).1 = "do_nothing" :=
  empty_percepts_do_nothing initialSimpleAgent rfl

/-- The scan loop of `SimpleAgent.think` returns the action of the
earliest-declared matching rule: whenever rule `i` matches the percept,
the result is the action of some matching rule `k ≤ i` below which no
rule matches. -/
theorem scanRules_first_match (rs : List (String × String)) (p : String) :
    ∀ (i : Nat) (hi : i < rs.length), pyIn (rs.get ⟨i, hi⟩).1 p = true →
    ∃ k, ∃ hk : k < rs.length, k ≤ i ∧ pyIn (rs.get ⟨k, hk⟩).1 p = true ∧
      (∀ l (hl : l < k), pyIn (rs.get ⟨l, Nat.lt_trans hl hk⟩).1 p = false) ∧
      scanRules rs p = (rs.get ⟨k, hk⟩).2 := by
  induction rs with
  | nil => intro i hi; simp at hi
  | cons r rest ih =>
    intro i hi h
    by_cases hr : pyIn r.1 p = true
    · refine ⟨0, by simp, Nat.zero_le i, by simpa using hr, ?_, ?_⟩
      · intro l hl; exact absurd hl (Nat.not_lt_zero l)
      · cases r with
        | mk c a => simp [scanRules, hr]
    · have hr' : pyIn r.1 p = false := by
        simpa using hr
      have hi0 : i ≠ 0 := by
        intro h0
        subst h0
        simp at h
        exact hr h
      obtain ⟨i', rfl⟩ : ∃ i', i = i' + 1 := ⟨i - 1, by omega⟩
      have hi' : i' < rest.length := by
        simpa [Nat.succ_lt_succ_iff] using hi
      have h' : pyIn (rest.get ⟨i', hi'⟩).1 p = true := by
        simpa using h
      obtain ⟨k, hk, hki, hkm, hmin, hres⟩ := ih i' hi' h'
      refine ⟨k + 1, by simpa [Nat.succ_lt_succ_iff] using hk, by omega,
        by simpa using hkm, ?_, ?_⟩
      · intro l hl
        cases l with
        | zero => simpa using hr'
        | succ l' =>
          have hl' : l' < k := by omega
          simpa using hmin l' hl'
      · cases r with
        | mk c a =>
          simp [scanRules, hr']
          simpa using hres

/-- Claim C6: when the last percept contains the condition substrings of
two rules `i < j`, `think` deterministically returns the action of the
earliest-declared matching rule (some `k ≤ i` with every earlier rule not
matching) — declaration order decides, first match wins. -/
theorem think_first_declared_rule_wins (a : SimpleAgent) (p : String)
    (hp : a.percepts.getLast? = some p)
    (i j : Nat) (hj : j < a.rules.length) (hij : i < j)
    (hi : pyIn (a.rules.get ⟨i, Nat.lt_trans hij hj⟩).1 p = true)
    (_hj : pyIn (a.rules.get ⟨j, hj⟩).1 p = true) :
    ∃ k, ∃ hk : k < a.rules.length, k ≤ i ∧
      pyIn (a.rules.get ⟨k, hk⟩).1 p = true ∧
      (∀ l (hl : l < k), pyIn (a.rules.get ⟨l, Nat.lt_trans hl hk⟩).1 p = false) ∧
      a.think = (a.rules.get ⟨k, hk⟩).2 := by
  obtain ⟨k, hk, hki, hkm, hmin, hres⟩ :=
    scanRules_first_match a.rules p i (Nat.lt_trans hij hj) hi
  exact ⟨k, hk, hki, hkm, hmin, by simpa [SimpleAgent.think, hp] using hres⟩

/-- Witness for C6: the percept `"The room is dark and cold"` matches
rule 1 (`"cold"`) and rule 2 (`"dark"`) of the default table; the earlier
rule decides. -/
theorem think_first_declared_rule_wins_witness :
    ∃ k, ∃ hk : k < (SimpleAgent.mk ["The room is dark and cold"] defaultSimpleRules 0).rules.length,
      k ≤ 1 ∧
      pyIn ((SimpleAgent.mk ["The room is dark and cold"] defaultSimpleRules 0).rules.get ⟨k, hk⟩).1 "The room is dark and cold" = true ∧
      (∀ l (hl : l < k), pyIn ((SimpleAgent.mk ["The room is dark and cold"] defaultSimpleRules 0).rules.get ⟨l, Nat.lt_trans hl hk⟩).1 "The room is dark and cold" = false) ∧
      (SimpleAgent.mk ["The room is dark and cold"] defaultSimpleRules 0).think
        = ((SimpleAgent.mk ["The room is dark and cold"] defaultSimpleRules 0).rules.get ⟨k, hk⟩).2 :=
  think_first_declared_rule_wins
    (SimpleAgent.mk ["The room is dark and cold"] defaultSimpleRules 0)
    "The room is dark and cold" rfl 1 2 (by decide) (by decide) (by decide) (by decide)

/-- Claim C4: dispatch never propagates a failure — an unregistered name
yields the descriptive not-found string, and a registered handler that
raises has its exception caught and converted into a descriptive error
string. -/
theorem dispatch_error_containment (ts : List Tool) (action input : String) :
    (findTool ts action = none →
      process_tool_use ts action input = "Tool \x27" ++ action ++ "\x27 not found.") ∧
    (∀ t e, findTool ts action = some t → t.func input = Except.error e →
      process_tool_use ts action input
        = "Error using tool \x27" ++ action ++ "\x27: " ++ e) := by
  constructor
  · intro h
    simp [process_tool_use, h]
  · intro t e ht he
    simp [process_tool_use, ht, he]

/-- Witness for C4: the empty registry misses `"ghost"`, and a registered
always-raising handler is contained into an error string. -/
theorem dispatch_error_containment_witness :
    process_tool_use [] "ghost" "x" = "Tool \x27ghost\x27 not found." ∧
    process_tool_use [boomTool] "boom" "x" = "Error using tool \x27boom\x27: kaboom" :=
  ⟨(dispatch_error_containment [] "ghost" "x").1 rfl,
   (dispatch_error_containment [boomTool] "boom" "x").2 boomTool "kaboom" rfl rfl⟩

/-- Replacing the entry named `t.name` is the identity on a list that
does not contain that name. -/
theorem mapReplace_eq_self (ts : List Tool) (t : Tool)
    (h : ∀ u ∈ ts, u.name ≠ t.name) :
    ts.map (fun u => if u.name = t.name then t else u) = ts := by
  induction ts with
  | nil => rfl
  | cons u rest ih =>
    have hu : u.name ≠ t.name := h u (List.mem_cons_self u rest)
    simp only [List.map_cons, if_neg hu,
      ih (fun v hv => h v (List.mem_cons_of_mem u hv))]

/-- No serialized entry carries a name absent from the tool list. -/
theorem countP_name_zero (ts : List Tool) (n : String)
    (h : ∀ u ∈ ts, u.name ≠ n) :
    (ts.map Tool.to_dict).countP (fun d => d.1 == n) = 0 := by
  rw [List.countP_eq_zero]
  intro d hd
  obtain ⟨u, hu, rfl⟩ := List.mem_map.mp hd
  simpa [Tool.to_dict] using h u hu

/-- Names occurring after an overwrite come from the new tool or from the
original list. -/
theorem name_of_mem_mapReplace (ts : List Tool) (t v : Tool)
    (hv : v ∈ ts.map (fun u => if u.name = t.name then t else u)) :
    v.name = t.name ∨ v.name ∈ ts.map Tool.name := by
  obtain ⟨u, hu, rfl⟩ := List.mem_map.mp hv
  by_cases hn : u.name = t.name
  · left; simp [hn]
  · right; simpa [hn] using List.mem_map_of_mem Tool.name hu

/-- Overwriting an existing name keeps exactly one entry with that name,
stores the new tool there, and preserves name uniqueness. -/
theorem register_overwrite_facts (ts : List Tool) (t : Tool)
    (hnd : (ts.map Tool.name).Nodup) (hmem : t.name ∈ ts.map Tool.name) :
    ((ts.map (fun u => if u.name = t.name then t else u)).map Tool.to_dict).countP
        (fun d => d.1 == t.name) = 1 ∧
    (t.name, t.description)
        ∈ (ts.map (fun u => if u.name = t.name then t else u)).map Tool.to_dict ∧
    ((ts.map (fun u => if u.name = t.name then t else u)).map Tool.name).Nodup := by
  induction ts with
  | nil => simp at hmem
  | cons u rest ih =>
    have hnd' : (rest.map Tool.name).Nodup := (List.nodup_cons.mp (by simpa using hnd)).2
    have hniu : u.name ∉ rest.map Tool.name := (List.nodup_cons.mp (by simpa using hnd)).1
    by_cases heq : u.name = t.name
    · have hrest : ∀ v ∈ rest, v.name ≠ t.name := by
        intro v hv hvn
        exact hniu (heq ▸ hvn ▸ List.mem_map_of_mem Tool.name hv)
      have h1 : (u :: rest).map (fun u => if u.name = t.name then t else u)
          = t :: rest := by
        simp only [List.map_cons, if_pos heq, mapReplace_eq_self rest t hrest]
      rw [h1]
      refine ⟨?_, ?_, ?_⟩
      · simp [List.countP_cons, countP_name_zero rest t.name hrest, Tool.to_dict]
      · simp [Tool.to_dict]
      · simp only [List.map_cons, List.nodup_cons]
        refine ⟨?_, hnd'⟩
        intro hcon
        obtain ⟨v, hv, hvn⟩ := List.mem_map.mp hcon
        exact hrest v hv hvn
    · have h1 : (u :: rest).map (fun u => if u.name = t.name then t else u)
          = u :: rest.map (fun u => if u.name = t.name then t else u) := by
        simp only [List.map_cons, if_neg heq]
      have hmem' : t.name ∈ rest.map Tool.name := by
        rcases (by simpa using hmem : t.name = u.name ∨ t.name ∈ rest.map Tool.name) with h2 | h2
        · exact absurd h2.symm heq
        · exact h2
      obtain ⟨c1, c2, c3⟩ := ih hnd' hmem'
      rw [h1]
      refine ⟨?_, ?_, ?_⟩
      · simpa [List.countP_cons, Tool.to_dict, heq] using c1
      · exact List.mem_cons_of_mem _ c2
      · simp only [List.map_cons, List.nodup_cons]
        refine ⟨?_, c3⟩
        intro hcon
        obtain ⟨v, hv, hvn⟩ := List.mem_map.mp hcon
        rcases name_of_mem_mapReplace rest t v hv with h2 | h2
        · exact heq (hvn ▸ h2)
        · exact hniu (hvn ▸ h2)

/-- Claim C7: after registering a tool under name `n` — including
re-registration of a name already present, which overwrites in place —
the registry holds exactly one entry named `n`, that entry carries the
new description, names stay unique, and `get_available_tools_prompt`
serializes exactly that entry list. -/
theorem register_describe_roundtrip (ts : List Tool) (t : Tool)
    (h : (ts.map Tool.name).Nodup) :
    ((registerTool ts t).map Tool.to_dict).countP (fun d => d.1 == t.name) = 1 ∧
    (t.name, t.description) ∈ (registerTool ts t).map Tool.to_dict ∧
    ((registerTool ts t).map Tool.name).Nodup ∧
    get_available_tools_prompt (registerTool ts t)
      = "You have access to the following tools:\n"
        ++ jsonDump ((registerTool ts t).map Tool.to_dict) := by
  refine ⟨?_, ?_, ?_, rfl⟩ <;>
  · unfold registerTool
    by_cases hany : ts.any (fun u => u.name == t.name) = true
    · rw [if_pos hany]
      have hmem : t.name ∈ ts.map Tool.name := by
        obtain ⟨u, hu, hun⟩ := List.any_eq_true.mp hany
        exact (beq_iff_eq.mp hun) ▸ List.mem_map_of_mem Tool.name hu
      have hfun : (fun u : Tool => if u.name == t.name then t else u)
          = (fun u : Tool => if u.name = t.name then t else u) := by
        funext u
        by_cases hu : u.name = t.name <;> simp [hu]
      rw [hfun]
      have := register_overwrite_facts ts t h hmem
      tauto
    · rw [if_neg hany]
      have hno : ∀ u ∈ ts, u.name ≠ t.name := by
        intro u hu hun
        exact hany (List.any_eq_true.mpr ⟨u, hu, beq_iff_eq.mpr hun⟩)
      first
      | · rw [List.map_append, List.countP_append]
          simp [countP_name_zero ts t.name hno, Tool.to_dict]
      | · simp [Tool.to_dict]
      | · rw [List.map_append]
          simp only [List.map_cons, List.map_nil]
          rw [List.nodup_append]
          refine ⟨h, List.nodup_singleton _, ?_⟩
          intro x hx hx1
          obtain ⟨u, hu, rfl⟩ := List.mem_map.mp hx
          simp at hx1
          exact hno u hu hx1

/-- Witness for C7: re-registering the calculator tool over the three
default tools keeps exactly one `"calculate"` entry. -/
theorem register_describe_roundtrip_witness :
    ((registerTool defaultTools calculateTool).map Tool.to_dict).countP
        (fun d => d.1 == calculateTool.name) = 1 ∧
    (calculateTool.name, calculateTool.description)
      ∈ (registerTool defaultTools calculateTool).map Tool.to_dict ∧
    ((registerTool defaultTools calculateTool).map Tool.name).Nodup ∧
    get_available_tools_prompt (registerTool defaultTools calculateTool)
      = "You have access to the following tools:\n"
        ++ jsonDump ((registerTool defaultTools calculateTool).map Tool.to_dict) :=
  register_describe_roundtrip defaultTools calculateTool (by decide)

/-- The elif chain of the weather branch computes exactly the
specification reading: the first location of the fixed list contained
(lowercased) in the input, with the `"New York"` fallback. -/
theorem locFromPrompt_eq_spec (p : String) :
    locFromPrompt p = firstMatchingLocationSpec p := by
  have h1 : pyLower "New York" = "new york" := by decide
  have h2 : pyLower "London" = "london" := by decide
  have h3 : pyLower "Tokyo" = "tokyo" := by decide
  have h4 : pyLower "Sydney" = "sydney" := by decide
  unfold locFromPrompt firstMatchingLocationSpec
  rw [List.find?]
  rw [List.find?]
  rw [List.find?]
  rw [List.find?]
  rw [h1, h2, h3, h4]
  by_cases b1 : pyIn "new york" (pyLower p) = true <;>
    by_cases b2 : pyIn "london" (pyLower p) = true <;>
      by_cases b3 : pyIn "tokyo" (pyLower p) = true <;>
        by_cases b4 : pyIn "sydney" (pyLower p) = true <;>
          simp_all

/-- Claim C8: the intent checks run in fixed order with the weather check
first, so every input whose lowercasing contains `"weather"` — even one
that also contains operator characters or search trigger words — yields
the `get_weather` action, with `action_input` the first matching location
of the fixed list `\x7bNew York, London, Tokyo, Sydney\x7d` or the
`"New York"` fallback. -/
theorem simulate_weather_priority (p : String)
    (h : pyIn "weather" (pyLower p) = true) :
    (simulate_llm_response p).action = some "get_weather" ∧
    (simulate_llm_response p).action_input = some (firstMatchingLocationSpec p) := by
  rw [← locFromPrompt_eq_spec p]
  unfold simulate_llm_response
  simp [h]

/-- Witness for C8: an input holding a weather mention, an arithmetic
operator and a search trigger word still routes to `get_weather`, with
the contained location `London` extracted. -/
theorem simulate_weather_priority_witness :
    (simulate_llm_response "weather 2+2 find London please").action = some "get_weather" ∧
    (simulate_llm_response "weather 2+2 find London please").action_input
      = some (firstMatchingLocationSpec "weather 2+2 find London please") :=
  simulate_weather_priority "weather 2+2 find London please" (by decide)

/-- Claim C9: every call to `process` appends exactly two records to
memory on every execution path — first `("user", s)`, then
`("assistant", r)` with `r` exactly the returned string — and changes
nothing else in memory. -/
theorem process_memory_two_records (a : LLMAgentState) (s : String) :
    ((a.process s).2).memory
      = a.memory ++ [("user", s), ("assistant", (a.process s).1)] := by
  unfold LLMAgentState.process
  rcases hA : (simulate_llm_response s).action with _ | action <;>
    rcases hI : (simulate_llm_response s).action_input with _ | input <;>
      rcases hR : (simulate_llm_response s).response with _ | resp <;>
        simp [hA, hI, hR, addToMemory] <;>
          split_ifs <;>
            simp [addToMemory]

/-- Python `+` on two numeric values always succeeds with a numeric value. -/
theorem pyAdd_num (a b : PyVal) (ha : isNumVal a = true) (hb : isNumVal b = true) :
    ∃ v, pyAdd a b = Except.ok v ∧ isNumVal v = true := by
  cases a <;> cases b <;> simp_all [pyAdd, isNumVal]

/-- Python `-` on two numeric values always succeeds with a numeric value. -/
theorem pySub_num (a b : PyVal) (ha : isNumVal a = true) (hb : isNumVal b = true) :
    ∃ v, pySub a b = Except.ok v ∧ isNumVal v = true := by
  cases a <;> cases b <;> simp_all [pySub, isNumVal]

/-- Python `*` on two numeric values always succeeds with a numeric value. -/
theorem pyMul_num (a b : PyVal) (ha : isNumVal a = true) (hb : isNumVal b = true) :
    ∃ v, pyMul a b = Except.ok v ∧ isNumVal v = true := by
  cases a <;> cases b <;> simp_all [pyMul, isNumVal]

/-- Python `/` on two numeric values yields a numeric value or raises
(division by zero). -/
theorem pyDiv_num (a b : PyVal) (ha : isNumVal a = true) (hb : isNumVal b = true) :
    (∃ v, pyDiv a b = Except.ok v ∧ isNumVal v = true) ∨
    (∃ msg, pyDiv a b = Except.error msg) := by
  cases a <;> cases b <;> simp_all [pyDiv, isNumVal] <;> split_ifs <;> simp

/-- Evaluating an arithmetic expression (numeric literals and the four
operators) yields a numeric value or an exception — never a value of
another type. -/
theorem arith_eval (e : PyExpr) (h : isArithExpr e = true) :
    (∃ v, pyEval e = Except.ok v ∧ isNumVal v = true) ∨
    (∃ msg, pyEval e = Except.error msg) := by
  induction e with
  | intLit n => exact Or.inl ⟨_, rfl, rfl⟩
  | strLit s => simp [isArithExpr] at h
  | add a b iha ihb =>
    obtain ⟨ha, hb⟩ := by simpa [isArithExpr] using h
    rcases iha ha with ⟨va, hva, hna⟩ | ⟨m, hm⟩
    · rcases ihb hb with ⟨vb, hvb, hnb⟩ | ⟨m, hm⟩
      · obtain ⟨v, hv, hn⟩ := pyAdd_num va vb hna hnb
        exact Or.inl ⟨v, by simp [pyEval, hva, hvb, hv], hn⟩
      · exact Or.inr ⟨m, by simp [pyEval, hva, hm]⟩
    · exact Or.inr ⟨m, by simp [pyEval, hm]⟩
  | sub a b iha ihb =>
    obtain ⟨ha, hb⟩ := by simpa [isArithExpr] using h
    rcases iha ha with ⟨va, hva, hna⟩ | ⟨m, hm⟩
    · rcases ihb hb with ⟨vb, hvb, hnb⟩ | ⟨m, hm⟩
      · obtain ⟨v, hv, hn⟩ := pySub_num va vb hna hnb
        exact Or.inl ⟨v, by simp [pyEval, hva, hvb, hv], hn⟩
      · exact Or.inr ⟨m, by simp [pyEval, hva, hm]⟩
    · exact Or.inr ⟨m, by simp [pyEval, hm]⟩
  | mul a b iha ihb =>
    obtain ⟨ha, hb⟩ := by simpa [isArithExpr] using h
    rcases iha ha with ⟨va, hva, hna⟩ | ⟨m, hm⟩
    · rcases ihb hb with ⟨vb, hvb, hnb⟩ | ⟨m, hm⟩
      · obtain ⟨v, hv, hn⟩ := pyMul_num va vb hna hnb
        exact Or.inl ⟨v, by simp [pyEval, hva, hvb, hv], hn⟩
      · exact Or.inr ⟨m, by simp [pyEval, hva, hm]⟩
    · exact Or.inr ⟨m, by simp [pyEval, hm]⟩
  | div a b iha ihb =>
    obtain ⟨ha, hb⟩ := by simpa [isArithExpr] using h
    rcases iha ha with ⟨va, hva, hna⟩ | ⟨m, hm⟩
    · rcases ihb hb with ⟨vb, hvb, hnb⟩ | ⟨m, hm⟩
      · rcases pyDiv_num va vb hna hnb with ⟨v, hv, hn⟩ | ⟨m, hm⟩
        · exact Or.inl ⟨v, by simp [pyEval, hva, hvb, hv], hn⟩
        · exact Or.inr ⟨m, by simp [pyEval, hva, hvb, hm]⟩
      · exact Or.inr ⟨m, by simp [pyEval, hva, hm]⟩
    · exact Or.inr ⟨m, by simp [pyEval, hm]⟩

/-- Claim C1 (amended): `calculate` evaluates its input as a general
Python expression with builtins removed, not as a restricted
arithmetic-only evaluator.  On a parsed arithmetic expression over
numeric literals and the four operators it returns the numeric result as
text or an error string (division by zero); `"2+2"` yields
`"Result: 4"`; the statement `"import os"` is a syntax error for `eval`
and yields a descriptive error string without being executed. -/
theorem calculate_restricted_amended :
    (∀ s e, parsePyExpr s = some e → isArithExpr e = true →
      (∃ v, pyEval e = Except.ok v ∧ isNumVal v = true ∧
        calculate s = "Result: " ++ pyReprVal v) ∨
      (∃ msg, calculate s = "Error calculating: " ++ msg)) ∧
    calculate "2+2" = "Result: 4" ∧
    (∃ msg, calculate "import os" = "Error calculating: " ++ msg) := by
  refine ⟨?_, by decide, ⟨"invalid syntax (<string>, line 1)", by decide⟩⟩
  intro s e hp he
  rcases arith_eval e he with ⟨v, hv, hn⟩ | ⟨m, hm⟩
  · exact Or.inl ⟨v, hv, hn, by simp [calculate, hp, hv]⟩
  · exact Or.inr ⟨m, by simp [calculate, hp, hm]⟩

/-- Counterexample to C1 as stated: the input `\x27a\x27+\x27b\x27` is
not a restricted arithmetic expression over numeric literals, yet
`calculate` evaluates it — Python string concatenation under `eval` —
and returns a result string, not an error string. -/
theorem calculate_not_restricted_counterexample :
    calculate "\x27a\x27+\x27b\x27" = "Result: ab" ∧
    isPrefixChars "Error".data (calculate "\x27a\x27+\x27b\x27").data = false := by
  decide

/-- Witness for the amended C1: the arithmetic input `"3*5"` instantiates
the universal clause. -/
theorem calculate_restricted_amended_witness :
    (∃ v, pyEval (PyExpr.mul (PyExpr.intLit 3) (PyExpr.intLit 5)) = Except.ok v ∧
      isNumVal v = true ∧ calculate "3*5" = "Result: " ++ pyReprVal v) ∨
    (∃ msg, calculate "3*5" = "Error calculating: " ++ msg) :=
  calculate_restricted_amended.1 "3*5"
    (PyExpr.mul (PyExpr.intLit 3) (PyExpr.intLit 5)) (by decide) (by decide)
